import Mathlib

/- Verification of the myapp Django example application:
   src/examples/django-app/myapp/views.py, urls.py, and the URL dispatch
   behaviour they induce. Middleware and the surrounding request lifecycle
   are out of scope, as the specification itself declares. -/

namespace Myapp

/-- An HTTP request at the dispatch layer: a method and a path. The code
under verification reads nothing else of Django's request object: the two
views ignore their argument entirely and URL dispatch consults only the
path. -/
structure Request where
  method : String
  path : String
  deriving DecidableEq, Repr

/-- An HTTP response: status code, Content-Type header and, for JSON
responses, the JSON object body as a list of string key/value pairs
(`none` stands for the framework-default 404 body). -/
structure Response where
  status : Nat
  contentType : String
  body : Option (List (String × String))
  deriving DecidableEq, Repr

/-- django.http.JsonResponse called with only a data argument: it
serializes the given object with default status 200 and Content-Type
application/json. -/
def JsonResponse (data : List (String × String)) : Response :=
  { status := 200, contentType := "application/json", body := some data }

/-- views.ping from views.py: returns JsonResponse on a one-key object,
ignoring its request argument. -/
def ping (request : Request) : Response :=
  JsonResponse [("message", "pong")]

/-- views.health from views.py: returns JsonResponse on a one-key object,
ignoring its request argument. -/
def health (request : Request) : Response :=
  JsonResponse [("status", "ok")]

/-- One entry of a urlpatterns list, as produced by
django.urls.path(route, view, name=...). A route is a path string only:
path() records no HTTP method. -/
structure UrlPattern where
  route : String
  view : Request → Response
  name : String

/-- urlpatterns from urls.py: the two path() entries, in source order. -/
def urlpatterns : List UrlPattern :=
  [ { route := "ping/", view := ping, name := "ping" },
    { route := "health/", view := health, name := "health" } ]

/-- Registration of one more path() entry at the end of a urlpatterns
list. The source performs no validation here: building urlpatterns is
plain list construction, with no check against entries already present. -/
def register (patterns : List UrlPattern) (u : UrlPattern) : List UrlPattern :=
  patterns ++ [u]

/-- Django URL resolution of a request path against a urlpatterns list:
patterns are tried in list order and the first match wins. The root
resolver consumes the leading slash of the path and a converter-free
path(route) entry matches the remainder by exact string equality, so an
entry matches exactly when the full path equals "/" followed by its
route. The HTTP method is not an input: resolution never consults it. -/
def resolvePath (patterns : List UrlPattern) (p : String) : Option (Request → Response) :=
  match patterns with
  | [] => none
  | u :: rest => if p = "/" ++ u.route then some u.view else resolvePath rest p

/-- The framework-default response when no pattern matches and Django
answers HTTP 404 (an HTML error page, not JSON). -/
def notFoundResponse : Response :=
  { status := 404, contentType := "text/html", body := none }

/-- Dispatch of one request against a pattern list: resolve the path and
invoke the matched view on the request, or answer 404. -/
def handleWith (patterns : List UrlPattern) (req : Request) : Response :=
  match resolvePath patterns req.path with
  | some view => view req
  | none => notFoundResponse

/-- Dispatch of one request by the application configured with
ROOT_URLCONF = myapp.urls, that is, against urlpatterns. -/
def handle (req : Request) : Response :=
  handleWith urlpatterns req

/-- A request sequence is served one request at a time; the application
keeps no state between requests, so each response is handle of its
request. -/
def serve (requests : List Request) : List Response :=
  requests.map handle

/-- Resolution against the concrete urlpatterns of urls.py, summed up:
the path "/ping/" selects ping, the path "/health/" selects health, and
every other path selects nothing. -/
theorem resolvePath_urlpatterns (p : String) :
    resolvePath urlpatterns p =
      if p = "/ping/" then some ping
      else if p = "/health/" then some health
      else none := by
  have e1 : ("/" ++ "ping/" : String) = "/ping/" := rfl
  have e2 : ("/" ++ "health/" : String) = "/health/" := rfl
  simp only [urlpatterns, resolvePath, e1, e2]

/-- Status of a dispatched request, summed up: the answer is 404 exactly
when the path is neither "/ping/" nor "/health/"; matched paths reach a
view and both views answer 200. -/
theorem handle_status_404_iff (req : Request) :
    (handle req).status = 404 ↔ req.path ≠ "/ping/" ∧ req.path ≠ "/health/" := by
  by_cases h1 : req.path = "/ping/" <;> by_cases h2 : req.path = "/health/" <;>
    simp [handle, handleWith, resolvePath_urlpatterns, h1, h2, ping, health,
      JsonResponse, notFoundResponse]

/-- C1: for every request with method GET and path /ping/, the response
has status 200 and body the JSON object with the single pair
message: pong, served as application/json. -/
theorem get_ping_returns_pong :
    handle { method := "GET", path := "/ping/" } =
      { status := 200, contentType := "application/json",
        body := some [("message", "pong")] } := rfl

/-- C2: for every request with method GET and path /health/, the response
has status 200 and body the JSON object with the single pair
status: ok, served as application/json. -/
theorem get_health_returns_ok :
    handle { method := "GET", path := "/health/" } =
      { status := 200, contentType := "application/json",
        body := some [("status", "ok")] } := rfl

/-- C3 counterexample: the claim says a POST to /ping/ is outside the
registered set and must answer 404; the code dispatches it to the ping
view, which answers 200. -/
theorem post_ping_returns_200 :
    (handle { method := "POST", path := "/ping/" }).status = 200 := rfl

/-- C3 amended: the response status is 404 exactly when the request path
matches neither registered route path, regardless of the method; in
particular GET /ping/, POST /ping/ and GET /health/ all answer 200 while
GET /unknown/ answers 404. -/
theorem status_404_iff_path_unregistered :
    (handle { method := "GET", path := "/ping/" }).status = 200 ∧
    (handle { method := "POST", path := "/ping/" }).status = 200 ∧
    (handle { method := "GET", path := "/health/" }).status = 200 ∧
    (handle { method := "GET", path := "/unknown/" }).status = 404 ∧
    ∀ req : Request,
      (handle req).status = 404 ↔ req.path ≠ "/ping/" ∧ req.path ≠ "/health/" :=
  ⟨rfl, rfl, rfl, rfl, handle_status_404_iff⟩

/-- C4 counterexample: the claim says resolution matches on both the
method and the path and fails when no route matches both; the request
POST /ping/ matches no registered route on both fields (only GET routes
are claimed registered), yet resolution succeeds and dispatches it to the
ping view instead of answering 404. -/
theorem post_ping_resolves_to_ping_view :
    handle { method := "POST", path := "/ping/" } =
      ping { method := "POST", path := "/ping/" } ∧
    (handle { method := "POST", path := "/ping/" }).status ≠ 404 :=
  ⟨rfl, by decide⟩

/-- C4 amended: resolution performs an exact string match on the path
field only — a pattern matches exactly when the full path equals "/"
followed by its route — and the request fails with 404 exactly when no
registered route matches the path; the method field is never consulted. -/
theorem resolve_matches_path_only (req : Request) :
    ((handle req).status = 404 ↔ ∀ u ∈ urlpatterns, req.path ≠ "/" ++ u.route) ∧
    ∀ m : String, handle { method := m, path := req.path } = handle req := by
  constructor
  · rw [handle_status_404_iff]
    have e1 : ("/" ++ "ping/" : String) = "/ping/" := rfl
    have e2 : ("/" ++ "health/" : String) = "/health/" := rfl
    simp [urlpatterns, e1, e2]
  · intro m
    by_cases h1 : req.path = "/ping/" <;> by_cases h2 : req.path = "/health/" <;>
      simp [handle, handleWith, resolvePath_urlpatterns, h1, h2, ping, health]

/-- C5 counterexample: the claim says registering a route whose pair
equals an already registered one fails with ConfigurationError and
aborts boot; the code has no such check: registering ping/ twice yields a
working two-entry table and resolution succeeds, returning the first
entry's view. -/
theorem duplicate_registration_is_accepted :
    (register (register [] { route := "ping/", view := ping, name := "ping" })
        { route := "ping/", view := health, name := "ping2" }).length = 2 ∧
    resolvePath
        (register (register [] { route := "ping/", view := ping, name := "ping" })
          { route := "ping/", view := health, name := "ping2" })
        "/ping/" = some ping ∧
    (handleWith
        (register (register [] { route := "ping/", view := ping, name := "ping" })
          { route := "ping/", view := health, name := "ping2" })
        { method := "GET", path := "/ping/" }).status = 200 :=
  ⟨rfl, rfl, rfl⟩

/-- C5 amended: registration never fails — it appends the entry with no
duplicate check — and a duplicate is merely shadowed: every path already
resolvable before a registration resolves to the same view after it,
because patterns are tried in order and the first match wins. -/
theorem register_preserves_resolution (ps : List UrlPattern) (u : UrlPattern)
    (p : String) (v : Request → Response) (h : resolvePath ps p = some v) :
    resolvePath (register ps u) p = some v := by
  induction ps with
  | nil => simp [resolvePath] at h
  | cons head tail ih =>
    have hr : register (head :: tail) u = head :: register tail u := rfl
    rw [hr]
    simp only [resolvePath] at h ⊢
    by_cases hc : p = "/" ++ head.route
    · simpa [hc] using h
    · rw [if_neg hc] at h ⊢
      exact ih h

/-- Witness for the amended C5 theorem at a concrete duplicate: after
registering a second ping/ entry behind urlpatterns, the path /ping/
still resolves to the original ping view. -/
theorem register_preserves_resolution_witness :
    resolvePath
        (register urlpatterns { route := "ping/", view := health, name := "ping2" })
        "/ping/" = some ping :=
  register_preserves_resolution urlpatterns
    { route := "ping/", view := health, name := "ping2" } "/ping/" ping rfl

/-- C6: both views are pure functions of nothing — they ignore the
request entirely, so any two invocations on any two requests return
identical responses. -/
theorem handlers_ignore_request (r₁ r₂ : Request) :
    ping r₁ = ping r₂ ∧ health r₁ = health r₂ :=
  ⟨rfl, rfl⟩

/-- C7: handler outputs are invariant across repeated calls: after any
sequence of prior invocations, the next call to ping, to health, or to
the whole application returns exactly the response of a first call; no
state drifts between calls. -/
theorem handlers_invariant_across_calls (prior : List Request) (req : Request) :
    (List.map ping (prior ++ [req])).getLast? = some (ping req) ∧
    (List.map health (prior ++ [req])).getLast? = some (health req) ∧
    (serve (prior ++ [req])).getLast? = some (handle req) := by
  refine ⟨?_, ?_, ?_⟩ <;> simp [serve]

/-- C8: the route table satisfies the uniqueness invariant — its two
registered routes are distinct, so no two routes share a pair — and it is
immutable after startup: serving any prior traffic leaves every later
response equal to dispatch against the original table. -/
theorem route_table_unique_and_immutable :
    (urlpatterns.map fun u => u.route).Nodup ∧
    ∀ (prior : List Request) (req : Request),
      serve (prior ++ [req]) = serve prior ++ [handle req] := by
  refine ⟨by decide, fun prior req => ?_⟩
  simp [serve]

/-- C9: both defined routes answer with Content-Type application/json. -/
theorem defined_routes_content_type_json :
    (handle { method := "GET", path := "/ping/" }).contentType = "application/json" ∧
    (handle { method := "GET", path := "/health/" }).contentType = "application/json" :=
  ⟨rfl, rfl⟩

/-- C10: the views impose no method restriction: a request for /ping/ or
/health/ with any method whatsoever is dispatched to the corresponding
view, which ignores the request and returns the same 200 JSON response
as for GET. -/
theorem any_method_dispatches_to_view (m : String) :
    handle { method := m, path := "/ping/" } = ping { method := m, path := "/ping/" } ∧
    handle { method := m, path := "/health/" } = health { method := m, path := "/health/" } ∧
    handle { method := m, path := "/ping/" } = handle { method := "GET", path := "/ping/" } ∧
    handle { method := m, path := "/health/" } = handle { method := "GET", path := "/health/" } ∧
    (handle { method := m, path := "/ping/" }).status = 200 ∧
    (handle { method := m, path := "/health/" }).status = 200 :=
  ⟨rfl, rfl, rfl, rfl, rfl, rfl⟩

end Myapp
